import Mathlib

/-!
Shallow embedding of the MidoQ/ThreadPool worker-pool library
(include/basepool.h, include/fixedpool.h, include/cachedpool.h,
include/activepool.h, include/threadpool.h, include/util.h).

Machine integers (size_t, int) are modelled as Nat: every counter in the
source stays far below 2^31 on the paths the claims are about, so wrap-around
never matters.  Work items (std::function<void()>) are opaque; they are
modelled as Nat identifiers.  Blocking waits are modelled sequentially: a
bounded wait on a condition variable observes the predicate on the current
state, since no other thread runs during the wait in this embedding; the one
scheduling point that matters to a claim (the one-second sleep inside
ActivePool::submitTask) is made explicit by passing the pool state observed
at the retry as a separate argument.  Exceptions (throw of a C string) are
modelled as an error field next to the unchanged pool state.
-/

namespace ThreadPoolModel

/-- PoolState from basepool.h: the engine lifecycle tag. -/
inductive PoolState
  | STATE_INIT
  | STATE_RUNNING
  | STATE_EXITING
deriving DecidableEq, Repr

/-- A work item (std::function<void()>), opaque to the pool; modelled as an
identifier. -/
abbrev Task := Nat

/-- The two C-string exceptions thrown by the pools and caught by the
ThreadPool facade. -/
inductive SubmitErr
  | PoolNotRunning
  | TaskQueueOverflow
deriving DecidableEq, Repr

/-- Outcome of FixedPool::submitTask / CachedPool::submitTask: the pool state
after the call (unchanged when an exception was thrown), the exception if one
was thrown, and whether notEmpty was notified. -/
structure SubmitResult (P : Type) where
  pool : P
  err : Option SubmitErr
  notifiedNotEmpty : Bool
deriving DecidableEq, Repr

/-- FixedPool (include/fixedpool.h).  threads is the size of the threads_
map; the queue is the FIFO taskQueue_ with front at the head. -/
structure FixedPool where
  state : PoolState
  initThreadCount : Nat
  idleThreadCount : Nat
  curThreadCount : Nat
  threads : Nat
  taskMaxCount : Nat
  taskCount : Nat
  taskQueue : List Task
deriving DecidableEq, Repr

/-- FixedPool::DEFAULT_TASK_MAX_COUNT. -/
def FixedPool.DEFAULT_TASK_MAX_COUNT : Nat := 1000001

/-- The FixedPool constructor together with the BasePool constructor
(state STATE_INIT, all counters zero, empty queue and thread map). -/
def FixedPool.new : FixedPool :=
  { state := PoolState.STATE_INIT
    initThreadCount := 4
    idleThreadCount := 0
    curThreadCount := 0
    threads := 0
    taskMaxCount := FixedPool.DEFAULT_TASK_MAX_COUNT
    taskCount := 0
    taskQueue := [] }

/-- BasePool::checkSetPermission: setters are allowed only in STATE_INIT. -/
def FixedPool.checkSetPermission (p : FixedPool) : Bool :=
  p.state = PoolState.STATE_INIT

/-- FixedPool::setTaskMaxCount: refused (pool unchanged, warning printed)
unless checkSetPermission holds. -/
def FixedPool.setTaskMaxCount (p : FixedPool) (maxCount : Nat) : FixedPool :=
  if p.checkSetPermission then { p with taskMaxCount := maxCount } else p

/-- FixedPool::start: set STATE_RUNNING, remember initThreadCount, create and
start initThreadCount threads, set current and idle counters. -/
def FixedPool.start (p : FixedPool) (initThreadCount : Nat) : FixedPool :=
  { p with
    state := PoolState.STATE_RUNNING
    initThreadCount := initThreadCount
    threads := p.threads + initThreadCount
    curThreadCount := initThreadCount
    idleThreadCount := initThreadCount }

/-- FixedPool::submitTask.  Throws PoolNotRunning outside STATE_RUNNING.
Otherwise the bounded (one second) wait on notFull succeeds exactly when the
queue length is below taskMaxCount (sequential embedding: nothing pops during
the wait); on timeout it throws TaskQueueOverflow leaving the pool unchanged;
on success it appends the task, increments taskCount and notifies notEmpty. -/
def FixedPool.submitTask (p : FixedPool) (t : Task) : SubmitResult FixedPool :=
  if p.state ≠ PoolState.STATE_RUNNING then
    { pool := p, err := some SubmitErr.PoolNotRunning, notifiedNotEmpty := false }
  else if p.taskQueue.length < p.taskMaxCount then
    { pool := { p with taskQueue := p.taskQueue ++ [t], taskCount := p.taskCount + 1 }
      err := none
      notifiedNotEmpty := true }
  else
    { pool := p, err := some SubmitErr.TaskQueueOverflow, notifiedNotEmpty := false }

/-- CachedPool (cachedpool.h).  Same layout as FixedPool plus the elastic
sizing fields maxThreadCount and threadMaxIdleSec. -/
structure CachedPool where
  state : PoolState
  initThreadCount : Nat
  maxThreadCount : Nat
  threadMaxIdleSec : Nat
  idleThreadCount : Nat
  curThreadCount : Nat
  threads : Nat
  taskMaxCount : Nat
  taskCount : Nat
  taskQueue : List Task
deriving DecidableEq, Repr

/-- CachedPool::DEFAULT_TASK_MAX_COUNT. -/
def CachedPool.DEFAULT_TASK_MAX_COUNT : Nat := 1000001

/-- CachedPool::DEFAULT_THREAD_MAX_COUNT. -/
def CachedPool.DEFAULT_THREAD_MAX_COUNT : Nat := 16

/-- CachedPool::DEFAULT_MAX_IDLE_SEC. -/
def CachedPool.DEFAULT_MAX_IDLE_SEC : Nat := 30

/-- The CachedPool constructor together with the BasePool constructor. -/
def CachedPool.new : CachedPool :=
  { state := PoolState.STATE_INIT
    initThreadCount := 4
    maxThreadCount := CachedPool.DEFAULT_THREAD_MAX_COUNT
    threadMaxIdleSec := CachedPool.DEFAULT_MAX_IDLE_SEC
    idleThreadCount := 0
    curThreadCount := 0
    threads := 0
    taskMaxCount := CachedPool.DEFAULT_TASK_MAX_COUNT
    taskCount := 0
    taskQueue := [] }

/-- BasePool::checkSetPermission for CachedPool. -/
def CachedPool.checkSetPermission (p : CachedPool) : Bool :=
  p.state = PoolState.STATE_INIT

/-- CachedPool::setTaskMaxCount. -/
def CachedPool.setTaskMaxCount (p : CachedPool) (maxCount : Nat) : CachedPool :=
  if p.checkSetPermission then { p with taskMaxCount := maxCount } else p

/-- CachedPool::setThreadMaxCount. -/
def CachedPool.setThreadMaxCount (p : CachedPool) (maxCount : Nat) : CachedPool :=
  if p.checkSetPermission then { p with maxThreadCount := maxCount } else p

/-- CachedPool::setThreadIdleTimeout. -/
def CachedPool.setThreadIdleTimeout (p : CachedPool) (timeout : Nat) : CachedPool :=
  if p.checkSetPermission then { p with threadMaxIdleSec := timeout } else p

/-- CachedPool::start.  The member initThreadCount_ is clamped to
maxThreadCount_ and that clamped number of threads is created, but the last
two assignments of the source write the RAW PARAMETER initThreadCount into
curThreadCount_ and idleThreadCount_, not the clamped member. -/
def CachedPool.start (p : CachedPool) (initThreadCount : Nat) : CachedPool :=
  let clamped := if initThreadCount > p.maxThreadCount then p.maxThreadCount
                 else initThreadCount
  { p with
    state := PoolState.STATE_RUNNING
    initThreadCount := clamped
    threads := p.threads + clamped
    curThreadCount := initThreadCount
    idleThreadCount := initThreadCount }

/-- Outcome of CachedPool::submitTask; spawnedWorker records whether the
elastic-sizing branch created one additional worker. -/
structure CachedSubmitResult where
  pool : CachedPool
  err : Option SubmitErr
  notifiedNotEmpty : Bool
  spawnedWorker : Bool
deriving DecidableEq, Repr

/-- CachedPool::submitTask.  Identical to FixedPool::submitTask up to the
notify of notEmpty, then (reading taskCount_ AFTER its increment) spawns one
extra worker when taskCount exceeds idleThreadCount and curThreadCount is
below maxThreadCount, incrementing both thread counters. -/
def CachedPool.submitTask (p : CachedPool) (t : Task) : CachedSubmitResult :=
  if p.state ≠ PoolState.STATE_RUNNING then
    { pool := p, err := some SubmitErr.PoolNotRunning
      notifiedNotEmpty := false, spawnedWorker := false }
  else if p.taskQueue.length < p.taskMaxCount then
    let p1 := { p with taskQueue := p.taskQueue ++ [t], taskCount := p.taskCount + 1 }
    if p1.taskCount > p1.idleThreadCount ∧ p1.curThreadCount < p1.maxThreadCount then
      { pool := { p1 with
                  threads := p1.threads + 1
                  curThreadCount := p1.curThreadCount + 1
                  idleThreadCount := p1.idleThreadCount + 1 }
        err := none, notifiedNotEmpty := true, spawnedWorker := true }
    else
      { pool := p1, err := none, notifiedNotEmpty := true, spawnedWorker := false }
  else
    { pool := p, err := some SubmitErr.TaskQueueOverflow
      notifiedNotEmpty := false, spawnedWorker := false }

/-- The lambda checkThreadIdleTimeout inside CachedPool::threadFunc: after a
one-second wait timed out, decide whether this worker reached its idle
timeout.  It returns false when curThreadCount equals initThreadCount, and
otherwise compares the idle duration (seconds since the last task completion)
against threadMaxIdleSec. -/
def CachedPool.checkThreadIdleTimeout (p : CachedPool) (idleSec : Nat) : Bool :=
  if p.curThreadCount = p.initThreadCount then false
  else decide (idleSec > p.threadMaxIdleSec)

/-- The idle-timeout exit decision of CachedPool::threadFunc for the worker
with the given threadId: the body of checkThreadIdleTimeout reads only the
thread counters and the clock, so the threadId parameter of threadFunc plays
no role in the decision. -/
def CachedPool.threadFuncIdleExit (p : CachedPool) (threadId : Nat) (idleSec : Nat) : Bool :=
  p.checkThreadIdleTimeout idleSec

/-- The exit path at the bottom of CachedPool::threadFunc: decrement
idleThreadCount and curThreadCount, erase this thread from the map, notify
allExit. -/
def CachedPool.workerExit (p : CachedPool) : CachedPool :=
  { p with
    idleThreadCount := p.idleThreadCount - 1
    curThreadCount := p.curThreadCount - 1
    threads := p.threads - 1 }

/-- ThreadWithDQ (include/activepool.h): a worker with a double-buffered
queue.  The two role pointers publicQ_/privateQ_ over TaskQ1_/TaskQ2_ are
modelled directly as the two role sequences; swapping the pointers swaps the
sequences. -/
structure ThreadWithDQ where
  publicQ : List Task
  privateQ : List Task
  publicTaskCount : Nat
  privateTaskCount : Nat
deriving DecidableEq, Repr

/-- ThreadWithDQ::DEFAULT_TASK_MAX_COUNT, the per-worker public-queue cap. -/
def ThreadWithDQ.DEFAULT_TASK_MAX_COUNT : Nat := 500001

/-- The static member ThreadWithDQ::taskMaxCount_, read through
getTaskMaxCount.  Both ThreadWithDQ::setTaskMaxCount and
ActivePool::setTaskMaxCount have empty TODO bodies, so the static keeps its
initial value forever and is modelled as a constant. -/
def ThreadWithDQ.getTaskMaxCount : Nat := ThreadWithDQ.DEFAULT_TASK_MAX_COUNT

/-- The ThreadWithDQ constructor: both queues empty, both counters zero. -/
def ThreadWithDQ.new : ThreadWithDQ :=
  { publicQ := [], privateQ := [], publicTaskCount := 0, privateTaskCount := 0 }

/-- ThreadWithDQ::getTaskCount. -/
def ThreadWithDQ.getTaskCount (w : ThreadWithDQ) : Nat :=
  w.publicTaskCount + w.privateTaskCount

/-- ThreadWithDQ::getPublicTaskCount, the lock-free load estimate. -/
def ThreadWithDQ.getPublicTaskCount (w : ThreadWithDQ) : Nat :=
  w.publicTaskCount

/-- ThreadWithDQ::giveTask: under pubLock, append to the public queue and
increment publicTaskCount. -/
def ThreadWithDQ.giveTask (w : ThreadWithDQ) (t : Task) : ThreadWithDQ :=
  { w with publicQ := w.publicQ ++ [t], publicTaskCount := w.publicTaskCount + 1 }

/-- ThreadWithDQ::swapQ: under both spin locks, swap the two role pointers
and exchange the two atomic counters. -/
def ThreadWithDQ.swapQ (w : ThreadWithDQ) : ThreadWithDQ :=
  { publicQ := w.privateQ
    privateQ := w.publicQ
    publicTaskCount := w.privateTaskCount
    privateTaskCount := w.publicTaskCount }

/-- The two spin locks of a ThreadWithDQ. -/
inductive LockId
  | pubLock
  | priLock
deriving DecidableEq, Repr

/-- The order in which the two scoped guards of ThreadWithDQ::swapQ acquire
the spin locks: lock_g1 takes pubLock first, then lock_g2 takes priLock. -/
def ThreadWithDQ.swapQLockOrder : List LockId := [LockId.pubLock, LockId.priLock]

/-- ThreadWithDQ::trySwapQ.  Returns 0 (private queue not yet drained, no
swap), 1 (private drained, public non-empty, swapped) or -1 (both drained and
empty, no swap), paired with the worker state afterwards. -/
def ThreadWithDQ.trySwapQ (w : ThreadWithDQ) : Int × ThreadWithDQ :=
  if w.privateTaskCount = 0 then
    if w.publicTaskCount ≠ 0 then (1, w.swapQ)
    else (-1, w)
  else (0, w)

/-- ThreadWithDQ::consumeTasks: under priLock, run every task of the private
queue in FIFO order, then reset privateTaskCount to zero.  Returns the worker
state afterwards and the list of executed tasks in execution order. -/
def ThreadWithDQ.consumeTasks (w : ThreadWithDQ) : ThreadWithDQ × List Task :=
  ({ w with privateQ := [], privateTaskCount := 0 }, w.privateQ)

/-- The public load threads_[j]->getPublicTaskCount() read by the submit scan
of ActivePool (out-of-range indices default to a fresh worker; the source
never reads them on the considered paths). -/
def publicLoadAt (threads : List ThreadWithDQ) (j : Nat) : Nat :=
  (threads.getD j ThreadWithDQ.new).getPublicTaskCount

/-- The scan loop of ActivePool::trySubmitTask, one recursive step per
iteration of the for loop: fuel counts the remaining iterations, i is the
loop index, best is the pair (leastBusyTid, minTaskCount).  The loop body
updates best exactly when the load strictly undercuts the current minimum, so
ties keep the lowest id. -/
def leastBusyLoop (threads : List ThreadWithDQ) : Nat → Nat → Nat × Nat → Nat × Nat
  | 0, _, best => best
  | fuel + 1, i, best =>
      let count := publicLoadAt threads i
      leastBusyLoop threads fuel (i + 1) (if count < best.2 then (i, count) else best)

/-- ActivePool (include/activepool.h).  threads models the vector threads_
restricted to the live workers; curThreadCount is the atomic counter. -/
structure ActivePool where
  state : PoolState
  initThreadCount : Nat
  curThreadCount : Nat
  threads : List ThreadWithDQ
deriving DecidableEq, Repr

/-- The ActivePool constructor together with the BasePool constructor. -/
def ActivePool.new : ActivePool :=
  { state := PoolState.STATE_INIT
    initThreadCount := 4
    curThreadCount := 0
    threads := [] }

/-- ActivePool::setTaskMaxCount has an empty TODO body: the pool is returned
unchanged in every state, and the static per-worker cap is untouched. -/
def ActivePool.setTaskMaxCount (p : ActivePool) (maxCount : Nat) : ActivePool :=
  p

/-- ActivePool::start: create and start initThreadCount workers, set the
counter, and finally set STATE_RUNNING.  There is no clamping and no state
check. -/
def ActivePool.start (p : ActivePool) (initThreadCount : Nat) : ActivePool :=
  { p with
    initThreadCount := initThreadCount
    threads := p.threads ++ List.replicate initThreadCount ThreadWithDQ.new
    curThreadCount := initThreadCount
    state := PoolState.STATE_RUNNING }

/-- The load of worker j as read by ActivePool::trySubmitTask. -/
def ActivePool.publicLoad (p : ActivePool) (j : Nat) : Nat :=
  publicLoadAt p.threads j

/-- The full scan of ActivePool::trySubmitTask: leastBusyTid starts at 0 with
minTaskCount the load of worker 0, then the loop runs for i = 1 up to
curThreadCount - 1. -/
def ActivePool.leastBusy (p : ActivePool) : Nat × Nat :=
  leastBusyLoop p.threads (p.curThreadCount - 1) 1 (0, p.publicLoad 0)

/-- The give of ActivePool::trySubmitTask: the selected least-busy worker
receives the task through ThreadWithDQ::giveTask. -/
def ActivePool.giveToLeastBusy (p : ActivePool) (t : Task) : ActivePool :=
  { p with
    threads := p.threads.set p.leastBusy.1
      ((p.threads.getD p.leastBusy.1 ThreadWithDQ.new).giveTask t) }

/-- ActivePool::trySubmitTask: if the scanned minimum equals the static
per-worker cap, report failure and change nothing; otherwise give the task to
the selected worker and report success. -/
def ActivePool.trySubmitTask (p : ActivePool) (t : Task) : Bool × ActivePool :=
  if p.leastBusy.2 = ThreadWithDQ.getTaskMaxCount then (false, p)
  else (true, p.giveToLeastBusy t)

/-- Outcome of ActivePool::submitTask: the pool afterwards, the thrown
exception if any, whether notEmpty was broadcast, and whether the one-second
sleep-and-retry was taken. -/
structure ActiveSubmitResult where
  pool : ActivePool
  err : Option SubmitErr
  notifiedNotEmpty : Bool
  retried : Bool
deriving DecidableEq, Repr

/-- ActivePool::submitTask: try once; on success broadcast notEmpty and
return.  Otherwise sleep one second and retry exactly once; on success
broadcast and return, else throw TaskQueueOverflow.  The sleep is a
scheduling point at which worker threads may drain queues, so the pool state
observed by the retry is passed explicitly as retryState; a caller that
assumes nothing ran in between passes the same state twice.  Note that no
pool state is checked: submission proceeds even in STATE_INIT or
STATE_EXITING. -/
def ActivePool.submitTask (p : ActivePool) (retryState : ActivePool) (t : Task) :
    ActiveSubmitResult :=
  let r1 := p.trySubmitTask t
  if r1.1 then
    { pool := r1.2, err := none, notifiedNotEmpty := true, retried := false }
  else
    let r2 := retryState.trySubmitTask t
    if r2.1 then
      { pool := r2.2, err := none, notifiedNotEmpty := true, retried := true }
    else
      { pool := retryState, err := some SubmitErr.TaskQueueOverflow
        notifiedNotEmpty := false, retried := true }

/-- PoolMode from include/threadpool.h. -/
inductive PoolMode
  | MODE_FIXED
  | MODE_CACHED
  | MODE_ACTIVE
deriving DecidableEq, Repr

/-- The engine owned by the ThreadPool facade. -/
inductive Pool
  | fixed (p : FixedPool)
  | cached (p : CachedPool)
  | active (p : ActivePool)
deriving DecidableEq, Repr

/-- The ThreadPool constructor: select one engine according to the mode. -/
def ThreadPool.new : PoolMode → Pool
  | PoolMode.MODE_FIXED => Pool.fixed FixedPool.new
  | PoolMode.MODE_CACHED => Pool.cached CachedPool.new
  | PoolMode.MODE_ACTIVE => Pool.active ActivePool.new

/-- Outcome of the templated ThreadPool::submitTask facade: the engine
afterwards, the exception it caught from the engine, and whether the caller
received a result handle that was immediately fulfilled with the
default-constructed value of the return type (the catch branch builds and
runs an empty packaged_task exactly when an exception was caught). -/
structure FacadeSubmitResult where
  pool : Pool
  caughtErr : Option SubmitErr
  handleDefaultFulfilled : Bool
deriving DecidableEq, Repr

/-- ThreadPool::submitTask: wrap the callable and forward to the engine,
catching PoolNotRunning and TaskQueueOverflow; on a caught exception the
caller receives an already-fulfilled default handle.  For the ACTIVE engine
the retry observes the same state in this sequential embedding. -/
def ThreadPool.submitTask : Pool → Task → FacadeSubmitResult
  | Pool.fixed p, t =>
      let r := p.submitTask t
      { pool := Pool.fixed r.pool, caughtErr := r.err
        handleDefaultFulfilled := r.err.isSome }
  | Pool.cached p, t =>
      let r := p.submitTask t
      { pool := Pool.cached r.pool, caughtErr := r.err
        handleDefaultFulfilled := r.err.isSome }
  | Pool.active p, t =>
      let r := p.submitTask p t
      { pool := Pool.active r.pool, caughtErr := r.err
        handleDefaultFulfilled := r.err.isSome }

/-- An operation applied to one worker double buffer: a producer gives a
task, the owning worker attempts a swap, or the owning worker consumes its
private queue. -/
inductive DQOp
  | give (t : Task)
  | swap
  | consume
deriving DecidableEq, Repr

/-- Instrumented history of one double buffer: the worker state, the number
of tasks given to it, and the number of tasks it has executed. -/
structure DQTrace where
  worker : ThreadWithDQ
  given : Nat
  executed : Nat
deriving DecidableEq, Repr

/-- The initial history: fresh worker, nothing given, nothing executed. -/
def DQTrace.init : DQTrace :=
  { worker := ThreadWithDQ.new, given := 0, executed := 0 }

/-- One operation applied to a double-buffer history: give runs
ThreadWithDQ::giveTask, swap runs ThreadWithDQ::trySwapQ, consume runs
ThreadWithDQ::consumeTasks counting the executed tasks. -/
def DQstep (s : DQTrace) : DQOp → DQTrace
  | DQOp.give t => { s with worker := s.worker.giveTask t, given := s.given + 1 }
  | DQOp.swap => { s with worker := (s.worker.trySwapQ).2 }
  | DQOp.consume =>
      let r := s.worker.consumeTasks
      { s with worker := r.1, executed := s.executed + r.2.length }

/-- The history after a sequence of operations starting from the fresh
double buffer. -/
def DQrun (ops : List DQOp) : DQTrace :=
  ops.foldl DQstep DQTrace.init

/-- The structural invariant of a double-buffer history: each atomic counter
equals the length of its queue, and the two counters plus the executed count
account for every task given. -/
def DQgood (s : DQTrace) : Prop :=
  s.worker.publicTaskCount = s.worker.publicQ.length ∧
  s.worker.privateTaskCount = s.worker.privateQ.length ∧
  s.worker.publicTaskCount + s.worker.privateTaskCount + s.executed = s.given

/-- A running one-worker ActivePool used to instantiate theorems with
hypotheses at a concrete input. -/
def sampleActivePool : ActivePool :=
  { state := PoolState.STATE_RUNNING
    initThreadCount := 1
    curThreadCount := 1
    threads := [ThreadWithDQ.new] }

/-- A running CachedPool with no idle worker, used to instantiate theorems
with hypotheses at a concrete input. -/
def sampleCachedPool : CachedPool :=
  { CachedPool.new with
    state := PoolState.STATE_RUNNING
    curThreadCount := 1
    idleThreadCount := 0
    threads := 1 }

/-- A CachedPool that grew by one worker beyond its initial population, used
for the idle-timeout claims. -/
def grownCachedPool : CachedPool :=
  { CachedPool.new with
    state := PoolState.STATE_RUNNING
    initThreadCount := 1
    curThreadCount := 2
    idleThreadCount := 2
    threads := 2 }

/-!
Theorems.  Helper lemmas come first, then one theorem per claim (with its
counterexample and witness theorems where applicable).
-/

/-- The worker state after ThreadWithDQ::trySwapQ: the queues and counters
are exchanged exactly when the private side is drained and the public side is
non-empty. -/
lemma trySwapQ_snd (w : ThreadWithDQ) :
    (w.trySwapQ).2 =
      if w.privateTaskCount = 0 ∧ w.publicTaskCount ≠ 0 then w.swapQ else w := by
  unfold ThreadWithDQ.trySwapQ
  by_cases hpri : w.privateTaskCount = 0
  · by_cases hpub : w.publicTaskCount ≠ 0
    · simp [hpri, hpub]
    · simp [hpri, hpub]
  · simp [hpri]

/-- One double-buffer operation preserves the structural invariant. -/
lemma DQstep_good (s : DQTrace) (op : DQOp) (h : DQgood s) : DQgood (DQstep s op) := by
  obtain ⟨h1, h2, h3⟩ := h
  cases op with
  | give t =>
      refine ⟨?_, ?_, ?_⟩
      · show s.worker.publicTaskCount + 1 = (s.worker.publicQ ++ [t]).length
        simp [h1]
      · exact h2
      · show s.worker.publicTaskCount + 1 + s.worker.privateTaskCount +
          s.executed = s.given + 1
        omega
  | swap =>
      show DQgood ⟨(s.worker.trySwapQ).2, s.given, s.executed⟩
      rw [trySwapQ_snd]
      by_cases hc : s.worker.privateTaskCount = 0 ∧ s.worker.publicTaskCount ≠ 0
      · rw [if_pos hc]
        exact ⟨h2, h1, by show s.worker.privateTaskCount +
          s.worker.publicTaskCount + s.executed = s.given; omega⟩
      · rw [if_neg hc]
        exact ⟨h1, h2, h3⟩
  | consume =>
      refine ⟨h1, rfl, ?_⟩
      show s.worker.publicTaskCount + 0 +
        (s.executed + s.worker.privateQ.length) = s.given
      omega

/-- The structural invariant holds after any sequence of double-buffer
operations. -/
lemma DQrun_good (ops : List DQOp) : DQgood (DQrun ops) := by
  have main : ∀ (l : List DQOp) (s : DQTrace), DQgood s → DQgood (l.foldl DQstep s) := by
    intro l
    induction l with
    | nil => intro s h; exact h
    | cons op l ih => intro s h; exact ih (DQstep s op) (DQstep_good s op h)
  exact main ops DQTrace.init (by simp [DQTrace.init, DQgood, ThreadWithDQ.new])

/-- C3: for every worker double buffer and every sequence of give, swap and
consume operations, publicTaskCount + privateTaskCount equals the number of
tasks given and not yet executed; moreover (relative to any reachable
history) a give raises the sum by exactly one, a swap attempt leaves it
unchanged, and a consume lowers it by the number of tasks it executed. -/
theorem submitted_minus_executed_invariant (ops : List DQOp) (t : Task) :
    ((DQrun ops).worker.publicTaskCount + (DQrun ops).worker.privateTaskCount) +
      (DQrun ops).executed = (DQrun ops).given ∧
    ((DQstep (DQrun ops) (DQOp.give t)).worker.publicTaskCount +
       (DQstep (DQrun ops) (DQOp.give t)).worker.privateTaskCount =
     ((DQrun ops).worker.publicTaskCount + (DQrun ops).worker.privateTaskCount) + 1 ∧
     (DQstep (DQrun ops) (DQOp.give t)).given = (DQrun ops).given + 1 ∧
     (DQstep (DQrun ops) (DQOp.give t)).executed = (DQrun ops).executed) ∧
    ((DQstep (DQrun ops) DQOp.swap).worker.publicTaskCount +
       (DQstep (DQrun ops) DQOp.swap).worker.privateTaskCount =
     (DQrun ops).worker.publicTaskCount + (DQrun ops).worker.privateTaskCount ∧
     (DQstep (DQrun ops) DQOp.swap).given = (DQrun ops).given ∧
     (DQstep (DQrun ops) DQOp.swap).executed = (DQrun ops).executed) ∧
    ((DQstep (DQrun ops) DQOp.consume).executed =
       (DQrun ops).executed + (DQrun ops).worker.privateQ.length ∧
     (DQrun ops).worker.privateTaskCount = (DQrun ops).worker.privateQ.length ∧
     (DQstep (DQrun ops) DQOp.consume).worker.publicTaskCount +
       (DQstep (DQrun ops) DQOp.consume).worker.privateTaskCount =
     ((DQrun ops).worker.publicTaskCount + (DQrun ops).worker.privateTaskCount) -
       (DQrun ops).worker.privateTaskCount) := by
  obtain ⟨h1, h2, h3⟩ := DQrun_good ops
  refine ⟨h3, ⟨?_, rfl, rfl⟩, ⟨?_, rfl, rfl⟩, rfl, h2, ?_⟩
  · show (DQrun ops).worker.publicTaskCount + 1 +
      (DQrun ops).worker.privateTaskCount = _ + 1
    omega
  · show ((DQrun ops).worker.trySwapQ).2.publicTaskCount +
      ((DQrun ops).worker.trySwapQ).2.privateTaskCount = _
    rw [trySwapQ_snd]
    by_cases hc : (DQrun ops).worker.privateTaskCount = 0 ∧
        (DQrun ops).worker.publicTaskCount ≠ 0
    · rw [if_pos hc]
      show (DQrun ops).worker.privateTaskCount +
        (DQrun ops).worker.publicTaskCount = _
      omega
    · rw [if_neg hc]
  · show (DQrun ops).worker.publicTaskCount + 0 = _
    omega

/-- C2 counterexample: the freshly constructed pools do not carry the
defaults max_workers = 20, task_capacity = 1024, idle_timeout = 60 claimed by
the spec. -/
theorem default_config_mismatch :
    CachedPool.new.maxThreadCount ≠ 20 ∧
    CachedPool.new.taskMaxCount ≠ 1024 ∧
    CachedPool.new.threadMaxIdleSec ≠ 60 ∧
    FixedPool.new.taskMaxCount ≠ 1024 := by decide

/-- C2 amended: the defaults of the freshly constructed pools are
init_workers = 4 for every engine, task_capacity = 1000001 for FIXED and
CACHED, max_workers = 16 and idle_timeout = 30 s for CACHED, and a per-worker
public-queue cap of 500001 for ACTIVE. -/
theorem default_config_values :
    FixedPool.new.initThreadCount = 4 ∧
    FixedPool.new.taskMaxCount = 1000001 ∧
    CachedPool.new.initThreadCount = 4 ∧
    CachedPool.new.maxThreadCount = 16 ∧
    CachedPool.new.taskMaxCount = 1000001 ∧
    CachedPool.new.threadMaxIdleSec = 30 ∧
    ActivePool.new.initThreadCount = 4 ∧
    ThreadWithDQ.getTaskMaxCount = 500001 := by decide

/-- C10: CachedPool::start(20) on a default pool (max_workers 16) clamps the
number of workers actually created to 16 but then assigns the raw argument 20
to curThreadCount_ and idleThreadCount_, so current_workers ends at 20, not
min(20, 16) = 16. -/
theorem cached_start_overshoot_bug :
    (CachedPool.new.start 20).maxThreadCount = 16 ∧
    (CachedPool.new.start 20).initThreadCount = 16 ∧
    (CachedPool.new.start 20).threads = 16 ∧
    (CachedPool.new.start 20).curThreadCount = 20 ∧
    (CachedPool.new.start 20).idleThreadCount = 20 := by decide

/-- C5: ThreadWithDQ::trySwapQ returns 0 (HAS_WORK) without swapping when the
private counter is positive, -1 (EMPTY) without swapping when both counters
are zero, and otherwise returns 1 (SWAPPED) after exchanging the role of the
two queues and exchanging the two counters, taking pubLock before priLock. -/
theorem trySwapQ_cases (w : ThreadWithDQ) :
    (0 < w.privateTaskCount → w.trySwapQ = (0, w)) ∧
    (w.privateTaskCount = 0 → w.publicTaskCount = 0 → w.trySwapQ = (-1, w)) ∧
    (w.privateTaskCount = 0 → w.publicTaskCount ≠ 0 →
      w.trySwapQ = (1, w.swapQ) ∧
      w.swapQ.publicQ = w.privateQ ∧
      w.swapQ.privateQ = w.publicQ ∧
      w.swapQ.publicTaskCount = w.privateTaskCount ∧
      w.swapQ.privateTaskCount = w.publicTaskCount ∧
      ThreadWithDQ.swapQLockOrder = [LockId.pubLock, LockId.priLock]) := by
  refine ⟨?_, ?_, ?_⟩
  · intro h
    unfold ThreadWithDQ.trySwapQ
    rw [if_neg (by omega)]
  · intro h1 h2
    unfold ThreadWithDQ.trySwapQ
    rw [if_pos h1, if_neg (not_not_intro h2)]
  · intro h1 h2
    unfold ThreadWithDQ.trySwapQ
    rw [if_pos h1, if_pos h2]
    exact ⟨rfl, rfl, rfl, rfl, rfl, rfl⟩

/-- C5 witness: a worker with one undrained private task answers HAS_WORK and
is unchanged. -/
theorem trySwapQ_cases_witness :
    0 < (⟨[], [7], 0, 1⟩ : ThreadWithDQ).privateTaskCount ∧
    (⟨[], [7], 0, 1⟩ : ThreadWithDQ).trySwapQ = (0, ⟨[], [7], 0, 1⟩) :=
  ⟨by decide, (trySwapQ_cases ⟨[], [7], 0, 1⟩).1 (by decide)⟩

/-- C9 counterexample: on the ACTIVE engine, set_task_capacity(5) called in
INIT does not set the capacity used by subsequent submits: after start and
five successful submits the single worker already holds 5 public tasks, yet a
sixth submit still succeeds, so the effective capacity is not 5. -/
theorem active_set_task_capacity_noop :
    ActivePool.new.state = PoolState.STATE_INIT ∧
    (let p0 := (ActivePool.new.setTaskMaxCount 5).start 1
     let p1 := (p0.trySubmitTask 1).2
     let p2 := (p1.trySubmitTask 2).2
     let p3 := (p2.trySubmitTask 3).2
     let p4 := (p3.trySubmitTask 4).2
     let p5 := (p4.trySubmitTask 5).2
     p5.publicLoad 0 = 5 ∧ (p5.trySubmitTask 6).1 = true) := by decide

/-- C9 amended: for FIXED and CACHED, set_task_capacity(n) takes effect
exactly in the INIT state and leaves the pool untouched in any other state;
for ACTIVE the setter body is an empty TODO, so it is a no-op in every
state. -/
theorem set_task_capacity_init_only (p : FixedPool) (q : CachedPool)
    (a : ActivePool) (n : Nat) (hn : 1 ≤ n) :
    (p.state = PoolState.STATE_INIT → (p.setTaskMaxCount n).taskMaxCount = n) ∧
    (p.state ≠ PoolState.STATE_INIT → p.setTaskMaxCount n = p) ∧
    (q.state = PoolState.STATE_INIT → (q.setTaskMaxCount n).taskMaxCount = n) ∧
    (q.state ≠ PoolState.STATE_INIT → q.setTaskMaxCount n = q) ∧
    a.setTaskMaxCount n = a := by
  refine ⟨?_, ?_, ?_, ?_, rfl⟩
  · intro h
    simp [FixedPool.setTaskMaxCount, FixedPool.checkSetPermission, h]
  · intro h
    simp [FixedPool.setTaskMaxCount, FixedPool.checkSetPermission, h]
  · intro h
    simp [CachedPool.setTaskMaxCount, CachedPool.checkSetPermission, h]
  · intro h
    simp [CachedPool.setTaskMaxCount, CachedPool.checkSetPermission, h]

/-- C9 witness: setting capacity 7 on a fresh FIXED pool (state INIT) takes
effect. -/
theorem set_task_capacity_init_only_witness :
    1 ≤ 7 ∧ (FixedPool.new.setTaskMaxCount 7).taskMaxCount = 7 :=
  ⟨by decide,
   (set_task_capacity_init_only FixedPool.new CachedPool.new ActivePool.new 7
     (by decide)).1 (by decide)⟩

/-- C1 counterexample: an ACTIVE engine in STATE_EXITING (reachable: the
destructor sets the state while a worker is still live) accepts a submission:
the facade catches no exception and the caller does NOT receive a
default-fulfilled handle, contradicting the claim for the ACTIVE mode. -/
theorem active_submit_ignores_exiting_state :
    (let p : ActivePool :=
       { state := PoolState.STATE_EXITING, initThreadCount := 1,
         curThreadCount := 1, threads := [ThreadWithDQ.new] }
     p.state ≠ PoolState.STATE_RUNNING ∧
     (ThreadPool.submitTask (Pool.active p) 0).caughtErr = none ∧
     (ThreadPool.submitTask (Pool.active p) 0).handleDefaultFulfilled = false) := by
  decide

/-- C1 amended: for FIXED and CACHED, a submit outside STATE_RUNNING throws
PoolNotRunning, the facade catches it, the pool is unchanged and the caller
receives a handle already fulfilled with the default-constructed value; the
ACTIVE engine checks no state, so its submissions never raise
PoolNotRunning. -/
theorem submit_outside_running_default_handle (p : FixedPool) (q : CachedPool)
    (a : ActivePool) (t : Task)
    (hp : p.state ≠ PoolState.STATE_RUNNING)
    (hq : q.state ≠ PoolState.STATE_RUNNING) :
    ThreadPool.submitTask (Pool.fixed p) t =
      { pool := Pool.fixed p, caughtErr := some SubmitErr.PoolNotRunning,
        handleDefaultFulfilled := true } ∧
    ThreadPool.submitTask (Pool.cached q) t =
      { pool := Pool.cached q, caughtErr := some SubmitErr.PoolNotRunning,
        handleDefaultFulfilled := true } ∧
    (ThreadPool.submitTask (Pool.active a) t).caughtErr ≠
      some SubmitErr.PoolNotRunning := by
  refine ⟨?_, ?_, ?_⟩
  · simp [ThreadPool.submitTask, FixedPool.submitTask, hp]
  · simp [ThreadPool.submitTask, CachedPool.submitTask, hq]
  · simp only [ThreadPool.submitTask, ActivePool.submitTask]
    by_cases h1 : (a.trySubmitTask t).1
    · simp [h1]
    · simp [h1]

/-- C1 witness: a fresh FIXED pool is in INIT, and a submit against it yields
the caught PoolNotRunning plus a default-fulfilled handle. -/
theorem submit_outside_running_default_handle_witness :
    FixedPool.new.state ≠ PoolState.STATE_RUNNING ∧
    ThreadPool.submitTask (Pool.fixed FixedPool.new) 0 =
      { pool := Pool.fixed FixedPool.new,
        caughtErr := some SubmitErr.PoolNotRunning,
        handleDefaultFulfilled := true } :=
  ⟨by decide,
   (submit_outside_running_default_handle FixedPool.new CachedPool.new
     ActivePool.new 0 (by decide) (by decide)).1⟩

/-- C6: in STATE_RUNNING, a FIXED or CACHED submit whose bounded wait times
out (queue still at capacity) throws TaskQueueOverflow leaving the pool
unchanged, and a submit that finds room appends the task at the back,
increments the task counter and notifies notEmpty. -/
theorem bounded_submit_overflow_or_enqueue (p : FixedPool) (q : CachedPool)
    (t : Task)
    (hp : p.state = PoolState.STATE_RUNNING)
    (hq : q.state = PoolState.STATE_RUNNING) :
    (p.taskMaxCount ≤ p.taskQueue.length →
      p.submitTask t =
        { pool := p, err := some SubmitErr.TaskQueueOverflow,
          notifiedNotEmpty := false }) ∧
    (p.taskQueue.length < p.taskMaxCount →
      (p.submitTask t).pool.taskQueue = p.taskQueue ++ [t] ∧
      (p.submitTask t).pool.taskCount = p.taskCount + 1 ∧
      (p.submitTask t).err = none ∧
      (p.submitTask t).notifiedNotEmpty = true) ∧
    (q.taskMaxCount ≤ q.taskQueue.length →
      q.submitTask t =
        { pool := q, err := some SubmitErr.TaskQueueOverflow,
          notifiedNotEmpty := false, spawnedWorker := false }) ∧
    (q.taskQueue.length < q.taskMaxCount →
      (q.submitTask t).pool.taskQueue = q.taskQueue ++ [t] ∧
      (q.submitTask t).pool.taskCount = q.taskCount + 1 ∧
      (q.submitTask t).err = none ∧
      (q.submitTask t).notifiedNotEmpty = true) := by
  refine ⟨?_, ?_, ?_, ?_⟩
  · intro hfull
    simp [FixedPool.submitTask, hp, Nat.not_lt.mpr hfull]
  · intro hroom
    simp [FixedPool.submitTask, hp, hroom]
  · intro hfull
    simp [CachedPool.submitTask, hq, Nat.not_lt.mpr hfull]
  · intro hroom
    simp only [CachedPool.submitTask, hq]
    by_cases hs : q.taskCount + 1 > q.idleThreadCount ∧
        q.curThreadCount < q.maxThreadCount
    · simp [hroom, hs]
    · simp [hroom, hs]

/-- C6 witness: a freshly started FIXED pool is running, and a submit into
its empty queue appends the task. -/
theorem bounded_submit_overflow_or_enqueue_witness :
    (FixedPool.new.start 2).state = PoolState.STATE_RUNNING ∧
    ((FixedPool.new.start 2).submitTask 9).pool.taskQueue = [9] :=
  ⟨by decide, by
    have h := (bounded_submit_overflow_or_enqueue (FixedPool.new.start 2)
      (CachedPool.new.start 2) 9 (by decide) (by decide)).2.1 (by decide)
    simpa using h.1⟩

/-- C7: a successful CACHED submit spawns exactly one additional worker iff
the incremented task count exceeds the idle-worker count and the current
worker count is below max_workers; in that case both thread counters rise by
one, otherwise they are unchanged, and the current worker count stays at or
below max_workers. -/
theorem cached_submit_spawn_policy (q : CachedPool) (t : Task)
    (hq : q.state = PoolState.STATE_RUNNING)
    (hroom : q.taskQueue.length < q.taskMaxCount)
    (hmax : q.curThreadCount ≤ q.maxThreadCount) :
    ((q.submitTask t).spawnedWorker = true ↔
      (q.idleThreadCount < q.taskCount + 1 ∧
       q.curThreadCount < q.maxThreadCount)) ∧
    ((q.submitTask t).spawnedWorker = true →
      (q.submitTask t).pool.curThreadCount = q.curThreadCount + 1 ∧
      (q.submitTask t).pool.idleThreadCount = q.idleThreadCount + 1 ∧
      (q.submitTask t).pool.threads = q.threads + 1) ∧
    ((q.submitTask t).spawnedWorker = false →
      (q.submitTask t).pool.curThreadCount = q.curThreadCount ∧
      (q.submitTask t).pool.idleThreadCount = q.idleThreadCount ∧
      (q.submitTask t).pool.threads = q.threads) ∧
    (q.submitTask t).pool.curThreadCount ≤ q.maxThreadCount := by
  simp only [CachedPool.submitTask, hq]
  by_cases hs : q.taskCount + 1 > q.idleThreadCount ∧
      q.curThreadCount < q.maxThreadCount
  · simp [hroom, hs]
    omega
  · simp [hroom, hs]
    omega

/-- C7 witness: a running CACHED pool with one busy worker and no idle worker
spawns a second worker on submit. -/
theorem cached_submit_spawn_policy_witness :
    sampleCachedPool.state = PoolState.STATE_RUNNING ∧
    (sampleCachedPool.submitTask 0).spawnedWorker = true ∧
    (sampleCachedPool.submitTask 0).pool.curThreadCount = 2 := by
  have h := cached_submit_spawn_policy sampleCachedPool 0 (by decide) (by decide)
    (by decide)
  have hspawn : (sampleCachedPool.submitTask 0).spawnedWorker = true :=
    h.1.mpr (by decide)
  exact ⟨by decide, hspawn, by rw [(h.2.1 hspawn).1]; decide⟩

/-- C8 counterexample: worker ids are assigned from 0 upwards, so worker 0 of
a pool with init_workers = 1 is one of the first init_workers workers; yet in
a pool grown to two workers it passes the idle-timeout gate (31 s > 30 s) and
self-terminates, because the decision reads only the counters, never the
worker identity. -/
theorem cached_first_worker_can_self_terminate :
    0 < grownCachedPool.initThreadCount ∧
    grownCachedPool.initThreadCount < grownCachedPool.curThreadCount ∧
    grownCachedPool.threadFuncIdleExit 0 31 = true := by decide

/-- C8 amended: any CACHED worker, whatever its id, self-terminates on an
idle timeout exactly when the current worker count differs from the initial
count and its idle time strictly exceeds the timeout; on states satisfying
init_workers ≤ current_workers this gate means current_workers >
init_workers, so an exit never drops the population below init_workers. -/
theorem cached_idle_exit_gate (p : CachedPool) (threadId idleSec : Nat)
    (hge : p.initThreadCount ≤ p.curThreadCount) :
    (p.threadFuncIdleExit threadId idleSec = true ↔
      (p.initThreadCount < p.curThreadCount ∧ p.threadMaxIdleSec < idleSec)) ∧
    (p.threadFuncIdleExit threadId idleSec = true →
      p.initThreadCount ≤ p.workerExit.curThreadCount) := by
  unfold CachedPool.threadFuncIdleExit CachedPool.checkThreadIdleTimeout
    CachedPool.workerExit
  by_cases he : p.curThreadCount = p.initThreadCount
  · simp [he]
  · simp only [if_neg he, decide_eq_true_eq]
    constructor
    · constructor
      · intro h
        exact ⟨by omega, h⟩
      · intro h
        exact h.2
    · intro h
      omega

/-- C8 witness: in the grown pool, a worker idle for 31 s self-terminates and
the population stays at or above init_workers. -/
theorem cached_idle_exit_gate_witness :
    grownCachedPool.initThreadCount ≤ grownCachedPool.curThreadCount ∧
    grownCachedPool.threadFuncIdleExit 5 31 = true ∧
    grownCachedPool.initThreadCount ≤ grownCachedPool.workerExit.curThreadCount := by
  have h := cached_idle_exit_gate grownCachedPool 5 31 (by decide)
  have hexit : grownCachedPool.threadFuncIdleExit 5 31 = true :=
    h.1.mpr (by decide)
  exact ⟨by decide, hexit, h.2 hexit⟩

/-- Loop invariant of the submit scan of ActivePool::trySubmitTask: starting
from a best pair that records the load of the lowest index attaining the
minimum seen so far, the loop returns the lowest index attaining the minimum
load over the whole scanned range. -/
lemma leastBusyLoop_min (threads : List ThreadWithDQ) (fuel : Nat) :
    ∀ i b v : Nat, b < i → v = publicLoadAt threads b →
      (∀ j, j < i → v ≤ publicLoadAt threads j) →
      (∀ j, j < b → v < publicLoadAt threads j) →
      ((leastBusyLoop threads fuel i (b, v)).1 < i + fuel ∧
       (leastBusyLoop threads fuel i (b, v)).2 =
         publicLoadAt threads (leastBusyLoop threads fuel i (b, v)).1 ∧
       (∀ j, j < i + fuel →
         (leastBusyLoop threads fuel i (b, v)).2 ≤ publicLoadAt threads j) ∧
       (∀ j, j < (leastBusyLoop threads fuel i (b, v)).1 →
         (leastBusyLoop threads fuel i (b, v)).2 < publicLoadAt threads j)) := by
  induction fuel with
  | zero =>
      intro i b v hb hv hmin hstrict
      simp only [leastBusyLoop, Nat.add_zero]
      exact ⟨by omega, hv, hmin, hstrict⟩
  | succ fuel ih =>
      intro i b v hb hv hmin hstrict
      simp only [leastBusyLoop]
      rw [show i + (fuel + 1) = (i + 1) + fuel by omega]
      by_cases hc : publicLoadAt threads i < v
      · rw [if_pos hc]
        exact ih (i + 1) i (publicLoadAt threads i) (by omega) rfl
          (by
            intro j hj
            by_cases hji : j < i
            · exact le_of_lt (lt_of_lt_of_le hc (hmin j hji))
            · have : j = i := by omega
              subst this
              exact le_refl _)
          (by
            intro j hj
            exact lt_of_lt_of_le hc (hmin j hj))
      · rw [if_neg hc]
        exact ih (i + 1) b v (by omega) hv
          (by
            intro j hj
            by_cases hji : j < i
            · exact hmin j hji
            · have : j = i := by omega
              subst this
              exact Nat.le_of_not_lt hc)
          hstrict

/-- The full scan of ActivePool::trySubmitTask selects the lowest-id worker
whose public load is minimal among workers 0 .. curThreadCount - 1. -/
lemma leastBusy_spec (p : ActivePool) (h : 1 ≤ p.curThreadCount) :
    p.leastBusy.1 < p.curThreadCount ∧
    p.leastBusy.2 = p.publicLoad p.leastBusy.1 ∧
    (∀ j, j < p.curThreadCount → p.leastBusy.2 ≤ p.publicLoad j) ∧
    (∀ j, j < p.leastBusy.1 → p.leastBusy.2 < p.publicLoad j) := by
  have hmain := leastBusyLoop_min p.threads (p.curThreadCount - 1) 1 0
    (p.publicLoad 0) (by omega) rfl
    (by
      intro j hj
      have : j = 0 := by omega
      subst this
      exact le_refl _)
    (by
      intro j hj
      exact absurd hj (by omega))
  rw [show 1 + (p.curThreadCount - 1) = p.curThreadCount by omega] at hmain
  exact hmain

/-- C4: an ACTIVE submit scans the public loads and selects the lowest-id
worker of minimal load; when that minimum is below the per-worker cap it
gives the task to that worker and broadcasts notEmpty without retrying; when
the minimum equals the cap it sleeps one second and retries exactly once
against the state observed then, and it throws QueueFull precisely when the
retry still sees the minimum at the cap. -/
theorem active_submit_least_loaded (p1 p2 : ActivePool) (t : Task)
    (h1 : 1 ≤ p1.curThreadCount) (h2 : 1 ≤ p2.curThreadCount) :
    (p1.leastBusy.1 < p1.curThreadCount ∧
     p1.leastBusy.2 = p1.publicLoad p1.leastBusy.1 ∧
     (∀ j, j < p1.curThreadCount → p1.leastBusy.2 ≤ p1.publicLoad j) ∧
     (∀ j, j < p1.leastBusy.1 → p1.leastBusy.2 < p1.publicLoad j)) ∧
    (p2.leastBusy.1 < p2.curThreadCount ∧
     p2.leastBusy.2 = p2.publicLoad p2.leastBusy.1 ∧
     (∀ j, j < p2.curThreadCount → p2.leastBusy.2 ≤ p2.publicLoad j) ∧
     (∀ j, j < p2.leastBusy.1 → p2.leastBusy.2 < p2.publicLoad j)) ∧
    ((p1.submitTask p2 t).err = some SubmitErr.TaskQueueOverflow ↔
      (p1.leastBusy.2 = ThreadWithDQ.getTaskMaxCount ∧
       p2.leastBusy.2 = ThreadWithDQ.getTaskMaxCount)) ∧
    (p1.leastBusy.2 ≠ ThreadWithDQ.getTaskMaxCount →
      p1.submitTask p2 t =
        { pool := p1.giveToLeastBusy t, err := none,
          notifiedNotEmpty := true, retried := false }) ∧
    (p1.leastBusy.2 = ThreadWithDQ.getTaskMaxCount →
      (p1.submitTask p2 t).retried = true ∧
      (p2.leastBusy.2 ≠ ThreadWithDQ.getTaskMaxCount →
        p1.submitTask p2 t =
          { pool := p2.giveToLeastBusy t, err := none,
            notifiedNotEmpty := true, retried := true })) := by
  refine ⟨leastBusy_spec p1 h1, leastBusy_spec p2 h2, ?_, ?_, ?_⟩
  · unfold ActivePool.submitTask ActivePool.trySubmitTask
    by_cases e1 : p1.leastBusy.2 = ThreadWithDQ.getTaskMaxCount <;>
      by_cases e2 : p2.leastBusy.2 = ThreadWithDQ.getTaskMaxCount <;>
      simp [e1, e2]
  · intro e1
    unfold ActivePool.submitTask ActivePool.trySubmitTask
    simp [e1]
  · intro e1
    unfold ActivePool.submitTask ActivePool.trySubmitTask
    by_cases e2 : p2.leastBusy.2 = ThreadWithDQ.getTaskMaxCount <;>
      simp [e1, e2]

/-- C4 witness: on a running one-worker pool with zero load, submit gives the
task to worker 0 without retrying and broadcasts notEmpty. -/
theorem active_submit_least_loaded_witness :
    1 ≤ sampleActivePool.curThreadCount ∧
    (sampleActivePool.submitTask sampleActivePool 3).err = none ∧
    (sampleActivePool.submitTask sampleActivePool 3).retried = false ∧
    (sampleActivePool.submitTask sampleActivePool 3).notifiedNotEmpty = true := by
  have h := active_submit_least_loaded sampleActivePool sampleActivePool 3
    (by decide) (by decide)
  have hs := h.2.2.2.1 (by decide)
  exact ⟨by decide, by rw [hs], by rw [hs], by rw [hs]⟩

end ThreadPoolModel
